import Mathlib

/-!
Verification of the inventory-safe sale approval workflow of a
referral-based event-ticket sales portal.

The definitions below are shallow embeddings of the program's code:

* `decrement_ticket_qty` embeds the PL/pgSQL function of the same name
  (migration `20260111115950…`): a conditional `UPDATE … WHERE id = p_tier_id
  AND remaining_qty >= p_qty`, followed by an `IF NOT FOUND` branch that
  distinguishes a missing tier from insufficient inventory.  A raised
  exception aborts the transaction, so on error the store is unchanged.
* `approveSale` / `rejectSale` embed the `mutationFn` bodies of
  `useApproveSale` / `useRejectSale` in `src/hooks/useSales.ts`.
* `createPublicSale` embeds the `create-public-sale` edge-function handler.
* `fireWebhookDispatch` / `fireWebhook` embed the `fire-webhook`
  edge-function handler (payload building, log insertion, the 3-attempt
  retry loop with linear backoff, and the final log update).
* `useUpdateTicketTier` embeds the admin tier-edit mutation in
  `src/hooks/useTicketTiers.ts`.
-/

namespace Portal

/-- A row of `public.ticket_tiers`. -/
structure TicketTier where
  id : String
  name : String
  price : Int
  remaining_qty : Int
  initial_qty : Int
  deriving Repr, DecidableEq

/-- The `ticket_tiers` table. -/
abbrev TierStore := List TicketTier

/-- The error outcomes of `decrement_ticket_qty` (each is a `RAISE EXCEPTION`
in the source). -/
inductive DecrementError where
  | NotAdmin
  | TierNotFound
  | InsufficientInventory (remaining : Int)
  deriving Repr, DecidableEq

/-- `SELECT … FROM ticket_tiers WHERE id = tierId` (`id` is the primary key). -/
def findTier (store : TierStore) (tierId : String) : Option TicketTier :=
  store.find? (fun t => t.id == tierId)

/-- The row filter of the conditional update:
`WHERE id = p_tier_id AND remaining_qty >= p_qty`. -/
def decrementHits (tierId : String) (qty : Int) (t : TicketTier) : Bool :=
  t.id == tierId && decide (qty ≤ t.remaining_qty)

/-- The conditional `UPDATE ticket_tiers SET remaining_qty = remaining_qty - p_qty
WHERE id = p_tier_id AND remaining_qty >= p_qty`. -/
def condDecrement (store : TierStore) (tierId : String) (qty : Int) : TierStore :=
  store.map (fun t =>
    if decrementHits tierId qty t then
      { t with remaining_qty := t.remaining_qty - qty }
    else t)

/-- Embedding of `public.decrement_ticket_qty(p_tier_id, p_qty)` from
migration `20260111115950…`.  The function first checks
`has_role(auth.uid(), 'admin')`; then performs the conditional update;
`IF NOT FOUND` it re-reads the tier and raises `Ticket tier not found`
or `Insufficient inventory: only % tickets remaining`.  A raised
exception rolls the transaction back, so the error cases return the
input store unchanged. -/
def decrement_ticket_qty (isAdmin : Bool) (store : TierStore) (tierId : String)
    (qty : Int) : TierStore × Option DecrementError :=
  if isAdmin = false then (store, some .NotAdmin)
  else
    let updated := condDecrement store tierId qty
    let found := store.any (decrementHits tierId qty)
    if found then (updated, none)
    else
      match findTier store tierId with
      | none => (store, some .TierNotFound)
      | some t => (store, some (.InsufficientInventory t.remaining_qty))

/-- The table keeps at most one row per primary key. -/
def uniqueIds (store : TierStore) : Prop :=
  (store.map TicketTier.id).Nodup

instance (store : TierStore) : Decidable (uniqueIds store) :=
  inferInstanceAs (Decidable ((store.map TicketTier.id).Nodup))

theorem findTier_some_any (store : TierStore) (tierId : String) (qty : Int)
    (t : TicketTier) (hfind : findTier store tierId = some t)
    (hq : qty ≤ t.remaining_qty) :
    store.any (decrementHits tierId qty) = true := by
  unfold findTier at hfind
  rw [List.any_eq_true]
  refine ⟨t, List.mem_of_find?_eq_some hfind, ?_⟩
  have hid0 := List.find?_some hfind
  have hid : (t.id == tierId) = true := hid0
  simp [decrementHits, hid, hq]

theorem findTier_none_any (store : TierStore) (tierId : String) (qty : Int)
    (hfind : findTier store tierId = none) :
    store.any (decrementHits tierId qty) = false := by
  rw [List.any_eq_false]
  intro x hx hhit
  have hid : (x.id == tierId) = true := by
    simp only [decrementHits, Bool.and_eq_true] at hhit
    exact hhit.1
  exact (List.find?_eq_none.1 hfind x hx) hid

theorem findTier_insufficient_any (store : TierStore) (tierId : String)
    (qty : Int) (t : TicketTier) (hu : uniqueIds store)
    (hfind : findTier store tierId = some t)
    (hq : t.remaining_qty < qty) :
    store.any (decrementHits tierId qty) = false := by
  unfold findTier at hfind
  rw [List.any_eq_false]
  intro x hx hhit
  simp only [decrementHits, Bool.and_eq_true, beq_iff_eq,
    decide_eq_true_eq] at hhit
  have hidb0 := List.find?_some hfind
  have hidb : (t.id == tierId) = true := hidb0
  have htid : t.id = tierId := beq_iff_eq.1 hidb
  have hxt : x = t :=
    List.inj_on_of_nodup_map hu hx (List.mem_of_find?_eq_some hfind)
      (hhit.1.trans htid.symm)
  rw [hxt] at hhit
  exact absurd hhit.2 (not_le.2 hq)

theorem condDecrement_id (tierId : String) (qty : Int) (t : TicketTier) :
    (if decrementHits tierId qty t then
        { t with remaining_qty := t.remaining_qty - qty }
      else t).id = t.id := by
  by_cases h : decrementHits tierId qty t <;> simp [h]

theorem findTier_condDecrement (store : TierStore) (tierId : String) (qty : Int)
    (t : TicketTier) (hfind : findTier store tierId = some t)
    (hq : qty ≤ t.remaining_qty) :
    findTier (condDecrement store tierId qty) tierId
      = some { t with remaining_qty := t.remaining_qty - qty } := by
  unfold findTier condDecrement
  rw [List.find?_map]
  have hpres : ((fun u : TicketTier => u.id == tierId) ∘ fun u =>
      if decrementHits tierId qty u then
        { u with remaining_qty := u.remaining_qty - qty }
      else u) = fun u : TicketTier => u.id == tierId := by
    funext u
    simp only [Function.comp_apply]
    rw [condDecrement_id]
  rw [hpres]
  unfold findTier at hfind
  rw [hfind]
  have hid0 := List.find?_some hfind
  have hid : (t.id == tierId) = true := hid0
  simp only [Option.map_some']
  simp [decrementHits, hid, hq]

theorem mem_condDecrement_of_ne (store : TierStore) (tierId : String) (qty : Int)
    (u : TicketTier) (hu : u ∈ store) (hne : u.id ≠ tierId) :
    u ∈ condDecrement store tierId qty := by
  have hb : (u.id == tierId) = false := beq_eq_false_iff_ne.2 hne
  have hfalse : decrementHits tierId qty u = false := by
    simp [decrementHits, hb]
  unfold condDecrement
  exact List.mem_map.2 ⟨u, hu, by simp [hfalse]⟩

/-- `'pending' | 'approved' | 'rejected'` (the `CHECK` constraint on
`sales.status`). -/
inductive SaleStatus where
  | pending
  | approved
  | rejected
  deriving Repr, DecidableEq

/-- One element of `sales.tickets_data` (the `TicketItem` interface of
`useSales.ts` and `create-public-sale`). -/
structure TicketItem where
  tier_id : String
  tier_name : String
  price : Int
  qty : Int
  deriving Repr, DecidableEq

/-- A row of `public.sales` (columns after the rename migration:
`partner_id`, `transaction_id_last4`). -/
structure Sale where
  id : String
  partner_id : Option String
  status : SaleStatus
  buyer_name : String
  buyer_mobile : String
  amount : Int
  transaction_id_last4 : String
  screenshot_url : Option String
  tickets_data : List TicketItem
  rejection_reason : Option String
  approved_at : Option Nat
  deriving Repr, DecidableEq

/-- The persistent state touched by the approval workflow. -/
structure DB where
  tiers : TierStore
  sales : List Sale
  deriving Repr, DecidableEq

/-- The errors `useApproveSale`'s `mutationFn` can throw: the initial
`.single()` fetch failing, or the thrown
`Failed to deduct inventory for ${ticket.tier_name}: …`. -/
inductive ApproveError where
  | SaleNotFound
  | DecrementFailed (tier_name : String) (e : DecrementError)
  deriving Repr, DecidableEq

instance exceptDecEq {ε α} [DecidableEq ε] [DecidableEq α] :
    DecidableEq (Except ε α) := fun x y =>
  match x, y with
  | .ok a, .ok b =>
    if h : a = b then isTrue (by rw [h])
    else isFalse (fun hh => h (Except.ok.inj hh))
  | .error a, .error b =>
    if h : a = b then isTrue (by rw [h])
    else isFalse (fun hh => h (Except.error.inj hh))
  | .ok _, .error _ => isFalse (fun hh => Except.noConfusion hh)
  | .error _, .ok _ => isFalse (fun hh => Except.noConfusion hh)

/-- The outcome of one `useApproveSale` mutation: the database after the
call (each `decrement_ticket_qty` RPC commits on its own, so partial
effects persist), whether the `fire-webhook` edge function was invoked,
and the value returned / error thrown. -/
structure ApproveOutcome where
  db : DB
  webhookInvoked : Bool
  result : Except ApproveError Sale
  deriving Repr, DecidableEq

/-- The `for (const ticket of ticketsData)` loop of `useApproveSale`:
each iteration calls the `decrement_ticket_qty` RPC; the first RPC error
is thrown, which stops the loop but keeps the already-committed
decrements. -/
def runDecrements (isAdmin : Bool) (tiers : TierStore) :
    List TicketItem → TierStore × Option (String × DecrementError)
  | [] => (tiers, none)
  | item :: rest =>
    match decrement_ticket_qty isAdmin tiers item.tier_id item.qty with
    | (_, some e) => (tiers, some (item.tier_name, e))
    | (tiers', none) => runDecrements isAdmin tiers' rest

/-- Embedding of `useApproveSale`'s `mutationFn` (`src/hooks/useSales.ts`):
fetch the sale by id, decrement inventory per line item via RPC, then
`UPDATE sales SET status = 'approved', approved_at = now() WHERE id = saleId`,
then invoke the `fire-webhook` edge function (its own failure is only
logged).  Note the source performs no check of the sale's current status. -/
def approveSale (isAdmin : Bool) (now : Nat) (db : DB) (saleId : String) :
    ApproveOutcome :=
  match db.sales.find? (fun s => s.id == saleId) with
  | none => { db := db, webhookInvoked := false, result := .error .SaleNotFound }
  | some sale =>
    match runDecrements isAdmin db.tiers sale.tickets_data with
    | (tiers', some (name, e)) =>
      { db := { db with tiers := tiers' }
        webhookInvoked := false
        result := .error (.DecrementFailed name e) }
    | (tiers', none) =>
      { db :=
          { tiers := tiers'
            sales := db.sales.map (fun s =>
              if s.id == saleId then
                { s with status := .approved, approved_at := some now }
              else s) }
        webhookInvoked := true
        result := .ok sale }

/-- Embedding of `useRejectSale`'s `mutationFn`:
`UPDATE sales SET status = 'rejected', rejection_reason = reason WHERE id = saleId`.
No fetch and no status check; an update matching zero rows is not an error. -/
def rejectSale (db : DB) (saleId : String) (reason : String) : DB :=
  { db with
    sales := db.sales.map (fun s =>
      if s.id == saleId then
        { s with status := .rejected, rejection_reason := some reason }
      else s) }

/-- Demonstration tiers (two of the rows seeded by the initial migration). -/
def demoTiers : TierStore :=
  [ { id := "T1", name := "Silver", price := 699,
      remaining_qty := 100, initial_qty := 100 },
    { id := "T2", name := "Gold", price := 999,
      remaining_qty := 100, initial_qty := 100 } ]

/-- **C1.** For every tier identifier and requested quantity (invoked by an
admin), `decrement_ticket_qty` succeeds exactly when the tier exists and
its `remaining_qty` is at least the requested quantity, in which case the
tier's `remaining_qty` decreases by exactly that quantity and all other
tiers are untouched; when `remaining_qty` is below the requested quantity
it fails with `InsufficientInventory` carrying the actual remaining
amount, and the store is not mutated; when the tier does not exist it
fails with `TierNotFound` and the store is not mutated. -/
theorem decrement_ticket_qty_correct (store : TierStore) (tierId : String)
    (qty : Int) (hu : uniqueIds store) :
    (∀ t, findTier store tierId = some t → qty ≤ t.remaining_qty →
        decrement_ticket_qty true store tierId qty
          = (condDecrement store tierId qty, none)
        ∧ findTier (condDecrement store tierId qty) tierId
            = some { t with remaining_qty := t.remaining_qty - qty }
        ∧ ∀ u ∈ store, u.id ≠ tierId → u ∈ condDecrement store tierId qty)
  ∧ (∀ t, findTier store tierId = some t → t.remaining_qty < qty →
        decrement_ticket_qty true store tierId qty
          = (store, some (.InsufficientInventory t.remaining_qty)))
  ∧ (findTier store tierId = none →
        decrement_ticket_qty true store tierId qty
          = (store, some .TierNotFound)) := by
  refine ⟨?_, ?_, ?_⟩
  · intro t hf hq
    have hany := findTier_some_any store tierId qty t hf hq
    refine ⟨?_, findTier_condDecrement store tierId qty t hf hq,
      fun u hu' hne => mem_condDecrement_of_ne store tierId qty u hu' hne⟩
    simp [decrement_ticket_qty, hany]
  · intro t hf hq
    have hany := findTier_insufficient_any store tierId qty t hu hf hq
    simp [decrement_ticket_qty, hany, hf]
  · intro hf
    have hany := findTier_none_any store tierId qty hf
    simp [decrement_ticket_qty, hany, hf]

/-- Witness for `decrement_ticket_qty_correct`: all three arms evaluated on
the demonstration store. -/
theorem decrement_ticket_qty_correct_witness :
    decrement_ticket_qty true demoTiers "T1" 2
      = (condDecrement demoTiers "T1" 2, none)
  ∧ findTier (condDecrement demoTiers "T1" 2) "T1"
      = some { id := "T1", name := "Silver", price := 699,
               remaining_qty := 98, initial_qty := 100 }
  ∧ decrement_ticket_qty true demoTiers "T2" 101
      = (demoTiers, some (.InsufficientInventory 100))
  ∧ decrement_ticket_qty true demoTiers "T9" 1
      = (demoTiers, some .TierNotFound) := by
  have h1 := (decrement_ticket_qty_correct demoTiers "T1" 2 (by decide)).1
    { id := "T1", name := "Silver", price := 699,
      remaining_qty := 100, initial_qty := 100 } (by decide) (by decide)
  have h2 := (decrement_ticket_qty_correct demoTiers "T2" 101 (by decide)).2.1
    { id := "T2", name := "Gold", price := 999,
      remaining_qty := 100, initial_qty := 100 } (by decide) (by decide)
  have h3 := (decrement_ticket_qty_correct demoTiers "T9" 1 (by decide)).2.2
    (by decide)
  exact ⟨h1.1, by simpa using h1.2.1, h2, h3⟩

theorem runDecrements_fail_after_ok_items (isAdmin : Bool) (bad : TicketItem)
    (rest : List TicketItem) (e : DecrementError) :
    ∀ (pre : List TicketItem) (tiers tiersPre : TierStore),
      runDecrements isAdmin tiers pre = (tiersPre, none) →
      (decrement_ticket_qty isAdmin tiersPre bad.tier_id bad.qty).2 = some e →
      runDecrements isAdmin tiers (pre ++ bad :: rest)
        = (tiersPre, some (bad.tier_name, e))
  | [], tiers, tiersPre, hpre, hbad => by
    have htp : tiersPre = tiers := by
      simpa [runDecrements] using congrArg Prod.fst hpre.symm
    subst htp
    rcases hdec : decrement_ticket_qty isAdmin tiersPre bad.tier_id bad.qty
      with ⟨ts, oe⟩
    have : oe = some e := by rw [hdec] at hbad; exact hbad
    subst this
    simp [runDecrements, hdec]
  | item :: pre', tiers, tiersPre, hpre, hbad => by
    rcases hdec : decrement_ticket_qty isAdmin tiers item.tier_id item.qty
      with ⟨ts, oe⟩
    cases oe with
    | some err =>
      rw [runDecrements, hdec] at hpre
      exact absurd (congrArg Prod.snd hpre) (by simp)
    | none =>
      rw [runDecrements, hdec] at hpre
      have := runDecrements_fail_after_ok_items isAdmin bad rest e pre' ts
        tiersPre hpre hbad
      rw [List.cons_append, runDecrements, hdec]
      exact this

/-- If `useApproveSale` is invoked on a sale whose line items begin with a
prefix whose decrements all succeed and then an item whose decrement
fails, the thrown error carries the failing item's name and the sale and
webhook are untouched, while the database keeps the prefix decrements. -/
theorem approveSale_fail_state (isAdmin : Bool) (now : Nat) (db : DB)
    (saleId : String) (sale : Sale) (pre : List TicketItem)
    (bad : TicketItem) (rest : List TicketItem) (tiersPre : TierStore)
    (e : DecrementError)
    (hfind : db.sales.find? (fun s => s.id == saleId) = some sale)
    (hitems : sale.tickets_data = pre ++ bad :: rest)
    (hpre : runDecrements isAdmin db.tiers pre = (tiersPre, none))
    (hbad : (decrement_ticket_qty isAdmin tiersPre bad.tier_id bad.qty).2
      = some e) :
    approveSale isAdmin now db saleId
      = { db := { db with tiers := tiersPre }
          webhookInvoked := false
          result := .error (.DecrementFailed bad.tier_name e) } := by
  have hrun := runDecrements_fail_after_ok_items isAdmin bad rest e pre
    db.tiers tiersPre hpre hbad
  simp [approveSale, hfind, hitems, hrun]

/-- **C3.** During `approveSale` on a pending sale, if the conditional
decrement of some line item fails with `InsufficientInventory`, the whole
approval aborts: the sale's status is not set to `approved` (the sales
table is untouched), the webhook is not invoked, the failing tier's name
and its actual remaining quantity are surfaced in the thrown error, and
the decrements already applied to earlier line items remain applied
(the tier store afterwards is exactly the one produced by the successful
prefix, with no rollback). -/
theorem approveSale_insufficient_aborts (isAdmin : Bool) (now : Nat) (db : DB)
    (saleId : String) (sale : Sale) (pre : List TicketItem)
    (bad : TicketItem) (rest : List TicketItem) (tiersPre : TierStore)
    (r : Int)
    (hfind : db.sales.find? (fun s => s.id == saleId) = some sale)
    (hpending : sale.status = .pending)
    (hitems : sale.tickets_data = pre ++ bad :: rest)
    (hpre : runDecrements isAdmin db.tiers pre = (tiersPre, none))
    (hbad : (decrement_ticket_qty isAdmin tiersPre bad.tier_id bad.qty).2
      = some (.InsufficientInventory r)) :
    (approveSale isAdmin now db saleId).result
        = .error (.DecrementFailed bad.tier_name (.InsufficientInventory r))
    ∧ (approveSale isAdmin now db saleId).webhookInvoked = false
    ∧ (approveSale isAdmin now db saleId).db.sales = db.sales
    ∧ (approveSale isAdmin now db saleId).db.tiers = tiersPre := by
  rw [approveSale_fail_state isAdmin now db saleId sale pre bad rest tiersPre
    (.InsufficientInventory r) hfind hitems hpre hbad]
  exact ⟨rfl, rfl, rfl, rfl⟩

/-- A database with a pending sale whose second line item exceeds the
remaining inventory of tier `T2`. -/
def shortDB : DB :=
  { tiers :=
      [ { id := "T1", name := "Silver", price := 699,
          remaining_qty := 5, initial_qty := 100 },
        { id := "T2", name := "Gold", price := 999,
          remaining_qty := 1, initial_qty := 100 } ]
    sales :=
      [ { id := "S1", partner_id := some "P1", status := .pending,
          buyer_name := "Buyer", buyer_mobile := "9876543210",
          amount := 4395, transaction_id_last4 := "0099",
          screenshot_url := none,
          tickets_data :=
            [ { tier_id := "T1", tier_name := "Silver", price := 699, qty := 2 },
              { tier_id := "T2", tier_name := "Gold", price := 999, qty := 3 } ]
          rejection_reason := none, approved_at := none } ] }

/-- Witness for `approveSale_insufficient_aborts`: the prefix decrement on
`T1` (5 → 3) survives the aborted approval; the error names `Gold` and
reports 1 remaining. -/
theorem approveSale_insufficient_aborts_witness :
    (approveSale true 7 shortDB "S1").result
        = .error (.DecrementFailed "Gold" (.InsufficientInventory 1))
    ∧ (approveSale true 7 shortDB "S1").webhookInvoked = false
    ∧ (approveSale true 7 shortDB "S1").db.sales = shortDB.sales
    ∧ (approveSale true 7 shortDB "S1").db.tiers
        = [ { id := "T1", name := "Silver", price := 699,
              remaining_qty := 3, initial_qty := 100 },
            { id := "T2", name := "Gold", price := 999,
              remaining_qty := 1, initial_qty := 100 } ] := by
  have h := approveSale_insufficient_aborts true 7 shortDB "S1"
    ((shortDB.sales.get ⟨0, by decide⟩))
    [ { tier_id := "T1", tier_name := "Silver", price := 699, qty := 2 } ]
    { tier_id := "T2", tier_name := "Gold", price := 999, qty := 3 }
    []
    [ { id := "T1", name := "Silver", price := 699,
        remaining_qty := 3, initial_qty := 100 },
      { id := "T2", name := "Gold", price := 999,
        remaining_qty := 1, initial_qty := 100 } ]
    1 (by decide) (by decide) (by decide) (by decide) (by decide)
  exact ⟨h.1, h.2.1, h.2.2.1, h.2.2.2⟩

/-- A database with a pending sale that has an empty line-item list. -/
def emptyTicketsDB : DB :=
  { tiers :=
      [ { id := "T1", name := "Silver", price := 699,
          remaining_qty := 5, initial_qty := 100 } ]
    sales :=
      [ { id := "S2", partner_id := some "P1", status := .pending,
          buyer_name := "Buyer", buyer_mobile := "9876543210",
          amount := 0, transaction_id_last4 := "0099",
          screenshot_url := none, tickets_data := [],
          rejection_reason := none, approved_at := none } ] }

/-- The per-row update applied by `useApproveSale`'s status write preserves
`id`, so the `WHERE id = saleId` filter is unaffected by it. -/
theorem approve_update_id (saleId : String) (now : Nat) (s : Sale) :
    (if s.id == saleId then
        { s with status := SaleStatus.approved, approved_at := some now }
      else s).id = s.id := by
  by_cases h : (s.id == saleId) = true <;> simp [h]

/-- **C9.** `approveSale` on a pending sale whose `tickets_data` is the
empty list performs no inventory decrement at all and still succeeds:
the line-item loop is vacuous (the tier store is unchanged), the sale's
status is set to `approved` with `approved_at` set, and the webhook
dispatch is triggered. -/
theorem approveSale_empty_tickets (isAdmin : Bool) (now : Nat) (db : DB)
    (saleId : String) (sale : Sale)
    (hfind : db.sales.find? (fun s => s.id == saleId) = some sale)
    (hpending : sale.status = .pending)
    (hempty : sale.tickets_data = []) :
    (approveSale isAdmin now db saleId).result = .ok sale
    ∧ (approveSale isAdmin now db saleId).db.tiers = db.tiers
    ∧ (approveSale isAdmin now db saleId).webhookInvoked = true
    ∧ (approveSale isAdmin now db saleId).db.sales.find?
        (fun s => s.id == saleId)
        = some { sale with status := .approved, approved_at := some now } := by
  have hout : approveSale isAdmin now db saleId
      = { db :=
            { tiers := db.tiers
              sales := db.sales.map (fun s =>
                if s.id == saleId then
                  { s with status := .approved, approved_at := some now }
                else s) }
          webhookInvoked := true
          result := .ok sale } := by
    simp [approveSale, hfind, hempty, runDecrements]
  refine ⟨by rw [hout], by rw [hout], by rw [hout], ?_⟩
  rw [hout]
  show (db.sales.map _).find? _ = _
  rw [List.find?_map]
  have hpres : ((fun s : Sale => s.id == saleId) ∘ fun s =>
      if s.id == saleId then
        { s with status := SaleStatus.approved, approved_at := some now }
      else s) = fun s : Sale => s.id == saleId := by
    funext s
    simp only [Function.comp_apply]
    rw [approve_update_id]
  rw [hpres, hfind]
  have hid0 := List.find?_some hfind
  have hid : (sale.id == saleId) = true := hid0
  have heq : sale.id = saleId := beq_iff_eq.1 hid
  simp [hid, heq]

/-- Witness for `approveSale_empty_tickets`: a pending sale with no line
items is approved without touching the tier store. -/
theorem approveSale_empty_tickets_witness :
    (approveSale true 9 emptyTicketsDB "S2").result
        = .ok { id := "S2", partner_id := some "P1", status := .pending,
                buyer_name := "Buyer", buyer_mobile := "9876543210",
                amount := 0, transaction_id_last4 := "0099",
                screenshot_url := none, tickets_data := [],
                rejection_reason := none, approved_at := none }
    ∧ (approveSale true 9 emptyTicketsDB "S2").db.tiers = emptyTicketsDB.tiers
    ∧ (approveSale true 9 emptyTicketsDB "S2").webhookInvoked = true
    ∧ (approveSale true 9 emptyTicketsDB "S2").db.sales.find?
        (fun s => s.id == "S2")
        = some { id := "S2", partner_id := some "P1", status := .approved,
                 buyer_name := "Buyer", buyer_mobile := "9876543210",
                 amount := 0, transaction_id_last4 := "0099",
                 screenshot_url := none, tickets_data := [],
                 rejection_reason := none, approved_at := some 9 } := by
  have h := approveSale_empty_tickets true 9 emptyTicketsDB "S2"
    { id := "S2", partner_id := some "P1", status := .pending,
      buyer_name := "Buyer", buyer_mobile := "9876543210",
      amount := 0, transaction_id_last4 := "0099",
      screenshot_url := none, tickets_data := [],
      rejection_reason := none, approved_at := none }
    (by decide) (by decide) (by decide)
  exact ⟨h.1, h.2.1, h.2.2.1, h.2.2.2⟩

/-- A database whose only sale has already been approved. -/
def processedDB : DB :=
  { tiers :=
      [ { id := "T1", name := "Silver", price := 699,
          remaining_qty := 5, initial_qty := 100 } ]
    sales :=
      [ { id := "S1", partner_id := some "P1", status := .approved,
          buyer_name := "Buyer", buyer_mobile := "9876543210",
          amount := 1398, transaction_id_last4 := "0099",
          screenshot_url := none,
          tickets_data :=
            [ { tier_id := "T1", tier_name := "Silver", price := 699, qty := 2 } ]
          rejection_reason := none, approved_at := some 1 } ] }

/-- **C2 (code behaviour at the failing input).**  The source of
`useApproveSale` and `useRejectSale` contains no check of the sale's
current status, so invoking them on an already-approved sale is *not*
an `AlreadyProcessed` no-op: `approveSale` succeeds again, decrements
inventory a second time (5 → 3) and overwrites `approved_at`, and
`rejectSale` flips the approved sale to `rejected` and stores a reason. -/
theorem approveSale_no_already_processed_check :
    (approveSale true 2 processedDB "S1").result
        = .ok { id := "S1", partner_id := some "P1", status := .approved,
                buyer_name := "Buyer", buyer_mobile := "9876543210",
                amount := 1398, transaction_id_last4 := "0099",
                screenshot_url := none,
                tickets_data :=
                  [ { tier_id := "T1", tier_name := "Silver",
                      price := 699, qty := 2 } ]
                rejection_reason := none, approved_at := some 1 }
    ∧ (approveSale true 2 processedDB "S1").db.tiers
        = [ { id := "T1", name := "Silver", price := 699,
              remaining_qty := 3, initial_qty := 100 } ]
    ∧ (approveSale true 2 processedDB "S1").webhookInvoked = true
    ∧ (approveSale true 2 processedDB "S1").db.sales.find?
        (fun s => s.id == "S1")
        = some { id := "S1", partner_id := some "P1", status := .approved,
                 buyer_name := "Buyer", buyer_mobile := "9876543210",
                 amount := 1398, transaction_id_last4 := "0099",
                 screenshot_url := none,
                 tickets_data :=
                   [ { tier_id := "T1", tier_name := "Silver",
                       price := 699, qty := 2 } ]
                 rejection_reason := none, approved_at := some 2 }
    ∧ (rejectSale processedDB "S1" "duplicate").sales.find?
        (fun s => s.id == "S1")
        = some { id := "S1", partner_id := some "P1", status := .rejected,
                 buyer_name := "Buyer", buyer_mobile := "9876543210",
                 amount := 1398, transaction_id_last4 := "0099",
                 screenshot_url := none,
                 tickets_data :=
                   [ { tier_id := "T1", tier_name := "Silver",
                       price := 699, qty := 2 } ]
                 rejection_reason := some "duplicate",
                 approved_at := some 1 } := by
  decide

/-- Embedding of `useUpdateTicketTier`'s `mutationFn`
(`src/hooks/useTicketTiers.ts`): an unconditional
`UPDATE ticket_tiers SET … WHERE id = id` writing whichever of `price`
and `remaining_qty` were supplied.  No bound against `initial_qty` or
below zero is checked anywhere (the table has no `CHECK` constraint). -/
def useUpdateTicketTier (store : TierStore) (id : String)
    (price : Option Int) (remaining_qty : Option Int) : TierStore :=
  store.map (fun t =>
    if t.id == id then
      { t with price := price.getD t.price
               remaining_qty := remaining_qty.getD t.remaining_qty }
    else t)

/-- The spec's tier invariant: `0 ≤ remaining_qty ≤ initial_qty`. -/
def tierInvariant (t : TicketTier) : Prop :=
  0 ≤ t.remaining_qty ∧ t.remaining_qty ≤ t.initial_qty

instance (t : TicketTier) : Decidable (tierInvariant t) :=
  inferInstanceAs (Decidable (0 ≤ t.remaining_qty ∧ t.remaining_qty ≤ t.initial_qty))

/-- **C4 (counterexample).** The invariant is *not* preserved by every
mutating operation: an admin direct edit through `useUpdateTicketTier`
is an unconditional write, so setting `remaining_qty := 101` on a tier
with `initial_qty = 100` (which satisfied the invariant) produces a tier
violating `remaining_qty ≤ initial_qty`. -/
theorem useUpdateTicketTier_violates_invariant :
    (∀ t ∈ demoTiers, tierInvariant t)
    ∧ ∃ t ∈ useUpdateTicketTier demoTiers "T1" none (some 101),
        ¬ tierInvariant t := by
  decide

theorem decrement_fst_cases (isAdmin : Bool) (store : TierStore)
    (tierId : String) (qty : Int) :
    (decrement_ticket_qty isAdmin store tierId qty).1 = store
    ∨ (decrement_ticket_qty isAdmin store tierId qty).1
        = condDecrement store tierId qty := by
  unfold decrement_ticket_qty
  by_cases ha : isAdmin = false
  · simp [ha]
  · by_cases hf : store.any (decrementHits tierId qty)
    · simp [ha, hf]
    · simp only [ha, if_false, hf]
      cases findTier store tierId <;> simp

theorem condDecrement_invariant (store : TierStore) (tierId : String)
    (qty : Int) (hq : 0 ≤ qty) (hinv : ∀ t ∈ store, tierInvariant t) :
    ∀ t ∈ condDecrement store tierId qty, tierInvariant t := by
  intro t ht
  unfold condDecrement at ht
  rcases List.mem_map.1 ht with ⟨u, hu, rfl⟩
  by_cases h : decrementHits tierId qty u
  · have hle : qty ≤ u.remaining_qty := by
      simp only [decrementHits, Bool.and_eq_true, decide_eq_true_eq] at h
      exact h.2
    have hi := hinv u hu
    unfold tierInvariant at hi ⊢
    rw [if_pos h]
    show 0 ≤ u.remaining_qty - qty ∧ u.remaining_qty - qty ≤ u.initial_qty
    omega
  · simpa [h] using hinv u hu

/-- **C4 (amended).** The *conditional decrement* does preserve the
invariant: for every non-negative requested quantity, if all tiers
satisfy `0 ≤ remaining_qty ≤ initial_qty` before a
`decrement_ticket_qty` call, they all still satisfy it afterwards
(whether the call succeeds or fails).  Admin direct edits carry no such
guarantee (see `useUpdateTicketTier_violates_invariant`). -/
theorem decrement_preserves_tier_invariant (isAdmin : Bool)
    (store : TierStore) (tierId : String) (qty : Int) (hq : 0 ≤ qty)
    (hinv : ∀ t ∈ store, tierInvariant t) :
    ∀ t ∈ (decrement_ticket_qty isAdmin store tierId qty).1,
      tierInvariant t := by
  rcases decrement_fst_cases isAdmin store tierId qty with hc | hc
  · rw [hc]; exact hinv
  · rw [hc]; exact condDecrement_invariant store tierId qty hq hinv

/-- Witness for `decrement_preserves_tier_invariant` on the demonstration
store: the decremented tier (100 → 98 of 100) still satisfies the
invariant. -/
theorem decrement_preserves_tier_invariant_witness :
    tierInvariant { id := "T1", name := "Silver", price := 699,
                    remaining_qty := 98, initial_qty := 100 } :=
  decrement_preserves_tier_invariant true demoTiers "T1" 2 (by decide)
    (by decide)
    { id := "T1", name := "Silver", price := 699,
      remaining_qty := 98, initial_qty := 100 }
    (by decide)

/-- `s.substring(0, n)`: the first `n` characters of `s`. -/
def truncate (n : Nat) (s : String) : String :=
  ⟨s.data.take n⟩

/-- What one `fetch(WEBHOOK_URL, …)` call in the `fire-webhook` retry loop
can produce: a response (with status and body text) or a thrown
transport error. -/
inductive AttemptOutcome where
  | response (status : Nat) (body : String)
  | transportError (msg : String)
  deriving Repr, DecidableEq

/-- `response.ok`: status in the 2xx range. -/
def respOk (status : Nat) : Bool :=
  200 ≤ status && status ≤ 299

/-- The mutable locals of the retry loop
(`success`, `responseStatus`, `responseBody`, `errorMessage`). -/
structure LoopState where
  success : Bool
  responseStatus : Nat
  responseBody : String
  errorMessage : String
  deriving Repr, DecidableEq

/-- Observable actions of the `fire-webhook` handler, in order. -/
inductive Event where
  | logInsert (status : String) (attempts : Nat)
  | post (attemptNo : Nat)
  | wait (ms : Nat)
  | logUpdate (status : String)
  deriving Repr, DecidableEq

/-- The `for (let attempt = 1; attempt <= 3; attempt++)` loop of
`fire-webhook`: POST; on a response record status and body and stop on
`response.ok`; on a thrown error record the message; then
`if (attempt < 3) await setTimeout(attempt * 1000)`.  `fuel` is the
number of remaining iterations (3 at entry). -/
def attemptLoop (oc : Nat → AttemptOutcome) :
    Nat → Nat → LoopState → LoopState × List Event
  | 0, _, st => (st, [])
  | fuel + 1, attempt, st =>
    match oc attempt with
    | .response status body =>
      let st' := { st with responseStatus := status, responseBody := body }
      if respOk status then
        ({ st' with success := true }, [Event.post attempt])
      else if attempt < 3 then
        let next := attemptLoop oc fuel (attempt + 1) st'
        (next.1, Event.post attempt :: Event.wait (attempt * 1000) :: next.2)
      else (st', [Event.post attempt])
    | .transportError msg =>
      let st' := { st with errorMessage := msg }
      if attempt < 3 then
        let next := attemptLoop oc fuel (attempt + 1) st'
        (next.1, Event.post attempt :: Event.wait (attempt * 1000) :: next.2)
      else (st', [Event.post attempt])

/-- A row of `public.webhook_logs` as written by `fire-webhook`. -/
structure WebhookLog where
  sale_id : String
  status : String
  attempts : Nat
  response_status : Option Nat
  response_body : Option String
  error_message : Option String
  deriving Repr, DecidableEq

/-- Result of one `fire-webhook` delivery sequence. -/
structure DispatchResult where
  events : List Event
  log : WebhookLog
  success : Bool
  deriving Repr, DecidableEq

/-- The delivery part of the `fire-webhook` handler: insert the log row
(`status 'pending'`, `attempts: 1`) before any network call, run the
3-attempt retry loop, then update the same row with the final status,
the last response status, the body truncated to 1000 characters
(`substring(0, 1000)`) and the error message.  The update does not
touch the `attempts` column. -/
def fireWebhookDispatch (saleId : String) (oc : Nat → AttemptOutcome) :
    DispatchResult :=
  let st0 : LoopState :=
    { success := false, responseStatus := 0, responseBody := ""
      errorMessage := "" }
  let r := attemptLoop oc 3 1 st0
  let finalStatus := if r.1.success then "success" else "failed"
  { events := Event.logInsert "pending" 1 :: r.2 ++ [Event.logUpdate finalStatus]
    log :=
      { sale_id := saleId, status := finalStatus, attempts := 1
        response_status := some r.1.responseStatus
        response_body := some (truncate 1000 r.1.responseBody)
        error_message := some r.1.errorMessage }
    success := r.1.success }

/-- Whether one attempt outcome counts as delivered (a 2xx response). -/
def okOutcome : AttemptOutcome → Bool
  | .response s _ => respOk s
  | .transportError _ => false

/-- The attempt numbers the loop executes, derived from the outcomes:
it stops at the first 2xx and never goes past 3. -/
def execAttempts (oc : Nat → AttemptOutcome) : List Nat :=
  if okOutcome (oc 1) then [1]
  else if okOutcome (oc 2) then [1, 2]
  else [1, 2, 3]

/-- The attempt on which the loop ends. -/
def lastAttempt (oc : Nat → AttemptOutcome) : Nat :=
  if okOutcome (oc 1) then 1 else if okOutcome (oc 2) then 2 else 3

/-- The attempt numbers of the POSTs in an event trace. -/
def postsOf : List Event → List Nat
  | [] => []
  | .post n :: es => n :: postsOf es
  | _ :: es => postsOf es

/-- The waited durations (ms) in an event trace. -/
def waitsOf : List Event → List Nat
  | [] => []
  | .wait m :: es => m :: waitsOf es
  | _ :: es => waitsOf es

/-- Shared trace analysis of one `fire-webhook` delivery, by exhaustive
case analysis over the three attempt outcomes. -/
theorem dispatchSpecAux (saleId : String) (oc : Nat → AttemptOutcome) :
    (∃ evs, (fireWebhookDispatch saleId oc).events
        = Event.logInsert "pending" 1 :: evs)
  ∧ postsOf (fireWebhookDispatch saleId oc).events = execAttempts oc
  ∧ (execAttempts oc).length ≤ 3
  ∧ waitsOf (fireWebhookDispatch saleId oc).events
      = ((execAttempts oc).take ((execAttempts oc).length - 1)).map
          (fun a => a * 1000)
  ∧ ((fireWebhookDispatch saleId oc).success = true
      ↔ (okOutcome (oc 1) || okOutcome (oc 2) || okOutcome (oc 3)) = true)
  ∧ (fireWebhookDispatch saleId oc).log.status
      = (if (fireWebhookDispatch saleId oc).success then "success" else "failed")
  ∧ (fireWebhookDispatch saleId oc).log.attempts = 1
  ∧ (∀ s b, oc (lastAttempt oc) = .response s b →
        (fireWebhookDispatch saleId oc).log.response_status = some s
        ∧ (fireWebhookDispatch saleId oc).log.response_body
            = some (truncate 1000 b))
  ∧ (∀ m, oc (lastAttempt oc) = .transportError m →
        (fireWebhookDispatch saleId oc).log.error_message = some m) := by
  rcases h1 : oc 1 with ⟨s1, b1⟩ | ⟨m1⟩ <;>
    rcases h2 : oc 2 with ⟨s2, b2⟩ | ⟨m2⟩ <;>
      rcases h3 : oc 3 with ⟨s3, b3⟩ | ⟨m3⟩
  all_goals try by_cases hok1 : respOk s1 = true
  all_goals try by_cases hok2 : respOk s2 = true
  all_goals try by_cases hok3 : respOk s3 = true
  all_goals simp [fireWebhookDispatch, attemptLoop, execAttempts, lastAttempt,
    okOutcome, postsOf, waitsOf, h1, h2, h3, *]

/-- **C5.** `dispatch(saleId)` creates a webhook log entry with status
`pending` and attempt count 1 before any network call; performs at most
3 POST attempts, stopping at the first 2xx response; waits
`attempt_number × 1` second before attempts 2 and 3 (and only then);
and after the loop updates the log entry with final status `success`
or `failed` (success exactly when some attempt got a 2xx), the last
response status code, the response body truncated to 1000 characters,
and the transport error message of the last thrown attempt. -/
theorem fireWebhook_dispatch_spec (saleId : String)
    (oc : Nat → AttemptOutcome) :
    (∃ evs, (fireWebhookDispatch saleId oc).events
        = Event.logInsert "pending" 1 :: evs)
  ∧ postsOf (fireWebhookDispatch saleId oc).events = execAttempts oc
  ∧ (execAttempts oc).length ≤ 3
  ∧ waitsOf (fireWebhookDispatch saleId oc).events
      = ((execAttempts oc).take ((execAttempts oc).length - 1)).map
          (fun a => a * 1000)
  ∧ ((fireWebhookDispatch saleId oc).success = true
      ↔ (okOutcome (oc 1) || okOutcome (oc 2) || okOutcome (oc 3)) = true)
  ∧ (fireWebhookDispatch saleId oc).log.status
      = (if (fireWebhookDispatch saleId oc).success then "success" else "failed")
  ∧ (fireWebhookDispatch saleId oc).log.attempts = 1
  ∧ (∀ s b, oc (lastAttempt oc) = .response s b →
        (fireWebhookDispatch saleId oc).log.response_status = some s
        ∧ (fireWebhookDispatch saleId oc).log.response_body
            = some (truncate 1000 b))
  ∧ (∀ m, oc (lastAttempt oc) = .transportError m →
        (fireWebhookDispatch saleId oc).log.error_message = some m) :=
  dispatchSpecAux saleId oc

/-- An endpoint that returns 500 twice and 200 on the third attempt. -/
def ocDemo : Nat → AttemptOutcome := fun n =>
  if n == 3 then .response 200 "ok" else .response 500 "boom"

/-- Witness for `fireWebhook_dispatch_spec` at `ocDemo`. -/
theorem fireWebhook_dispatch_spec_witness :
    (fireWebhookDispatch "S1" ocDemo).log.response_status = some 200
    ∧ (fireWebhookDispatch "S1" ocDemo).log.response_body = some "ok"
    ∧ postsOf (fireWebhookDispatch "S1" ocDemo).events = execAttempts ocDemo := by
  have h := fireWebhook_dispatch_spec "S1" ocDemo
  have h8 := h.2.2.2.2.2.2.2.1 200 "ok" (by decide)
  exact ⟨h8.1, h8.2, h.2.1⟩

/-- **C6 (counterexample).** With an endpoint failing twice and returning
2xx on the 3rd attempt, dispatch does end with `success` and the two
waits (1s then 2s) are present and increasing — but the log entry does
*not* show `attempts = 3`: the final update never touches the `attempts`
column, so it keeps the value 1 written at insertion. -/
theorem fireWebhook_attempts_not_updated :
    (fireWebhookDispatch "S1" ocDemo).success = true
    ∧ (fireWebhookDispatch "S1" ocDemo).log.status = "success"
    ∧ postsOf (fireWebhookDispatch "S1" ocDemo).events = [1, 2, 3]
    ∧ waitsOf (fireWebhookDispatch "S1" ocDemo).events = [1000, 2000]
    ∧ (fireWebhookDispatch "S1" ocDemo).log.attempts = 1
    ∧ ¬ (fireWebhookDispatch "S1" ocDemo).log.attempts = 3 := by
  decide

/-- **C6 (amended).** If the endpoint fails on the first two attempts and
returns 2xx on the 3rd, dispatch ends with status `success`, three POSTs
are made with two non-zero increasing waits (1000 ms, 2000 ms) between
them, and the log entry's `attempts` field still reads 1 (it is set at
insertion and never updated). -/
theorem fireWebhook_third_attempt_success (saleId : String)
    (oc : Nat → AttemptOutcome)
    (h1 : okOutcome (oc 1) = false) (h2 : okOutcome (oc 2) = false)
    (h3 : okOutcome (oc 3) = true) :
    (fireWebhookDispatch saleId oc).success = true
    ∧ (fireWebhookDispatch saleId oc).log.status = "success"
    ∧ postsOf (fireWebhookDispatch saleId oc).events = [1, 2, 3]
    ∧ waitsOf (fireWebhookDispatch saleId oc).events = [1000, 2000]
    ∧ (fireWebhookDispatch saleId oc).log.attempts = 1 := by
  obtain ⟨-, hposts, -, hwaits, hsucc, hstatus, hatt, -, -⟩ :=
    dispatchSpecAux saleId oc
  have hexec : execAttempts oc = [1, 2, 3] := by
    simp [execAttempts, h1, h2]
  have hs : (fireWebhookDispatch saleId oc).success = true :=
    hsucc.2 (by simp [h1, h2, h3])
  refine ⟨hs, ?_, ?_, ?_, hatt⟩
  · rw [hstatus, hs]
    rfl
  · rw [hposts, hexec]
  · rw [hwaits, hexec]
    rfl

/-- Witness for `fireWebhook_third_attempt_success` at `ocDemo`. -/
theorem fireWebhook_third_attempt_success_witness :
    (fireWebhookDispatch "S2" ocDemo).success = true
    ∧ (fireWebhookDispatch "S2" ocDemo).log.status = "success"
    ∧ postsOf (fireWebhookDispatch "S2" ocDemo).events = [1, 2, 3]
    ∧ waitsOf (fireWebhookDispatch "S2" ocDemo).events = [1000, 2000]
    ∧ (fireWebhookDispatch "S2" ocDemo).log.attempts = 1 :=
  fireWebhook_third_attempt_success "S2" ocDemo (by decide) (by decide)
    (by decide)

/-- A row of `public.profiles` (after the partner rename migration). -/
structure Profile where
  id : String
  partner_id : Option String
  name : String
  mobile : Option String
  role : String
  is_active : Bool
  deriving Repr, DecidableEq

/-- The JSON payload `fire-webhook` builds and signs. -/
structure WebhookPayload where
  event : String
  sale_id : String
  student : Option Profile
  buyer_name : String
  buyer_mobile : String
  amount : Int
  utr_last4 : String
  tickets : List TicketItem
  screenshot_url : Option String
  deriving Repr, DecidableEq

/-- The possible outcomes of the `fire-webhook` handler body. -/
inductive FireWebhookResult where
  | missingSaleId
  | saleNotFound
  | done (payload : WebhookPayload) (r : DispatchResult)
  deriving Repr, DecidableEq

/-- The payload `fire-webhook` builds from the fetched sale (and the
profile fetched by the sale's partner reference).  `sale.status` is not
among the fields read. -/
def payloadOf (profiles : List Profile) (sale : Sale) : WebhookPayload :=
  { event := "sale.approved", sale_id := sale.id
    student := sale.partner_id.bind
      (fun pid => profiles.find? (fun p => p.id == pid))
    buyer_name := sale.buyer_name, buyer_mobile := sale.buyer_mobile
    amount := sale.amount, utr_last4 := sale.transaction_id_last4
    tickets := sale.tickets_data, screenshot_url := sale.screenshot_url }

/-- Embedding of the `fire-webhook` edge-function handler: parse
`sale_id` (400 if absent), fetch the sale (404 if absent), build the
payload and run the logged delivery sequence.  The handler never reads
or checks `sale.status`. -/
def fireWebhook (sales : List Sale) (profiles : List Profile)
    (sale_id : Option String) (oc : Nat → AttemptOutcome) :
    FireWebhookResult :=
  match sale_id with
  | none => .missingSaleId
  | some sid =>
    match sales.find? (fun s => s.id == sid) with
    | none => .saleNotFound
    | some sale => .done (payloadOf profiles sale) (fireWebhookDispatch sid oc)

theorem fireWebhook_some (sales : List Sale) (profiles : List Profile)
    (sid : String) (oc : Nat → AttemptOutcome) :
    fireWebhook sales profiles (some sid) oc
      = match sales.find? (fun s => s.id == sid) with
        | none => .saleNotFound
        | some sale => .done (payloadOf profiles sale)
            (fireWebhookDispatch sid oc) := rfl

/-- Overwriting a sale's status (as `useApproveSale`/`useRejectSale` do)
keeps its `id`. -/
theorem status_update_id (sid : String) (st : SaleStatus) (s : Sale) :
    (if s.id == sid then { s with status := st } else s).id = s.id := by
  by_cases h : (s.id == sid) = true <;> simp [h]

/-- **C10.** `fireWebhook` does not verify the sale's status: for every
existing sale identifier — including sales that are still pending or
were rejected — it builds a payload with event `'sale.approved'`,
creates a `pending` webhook log entry and attempts delivery exactly as
for an approved sale; replacing the sale's status by any other value
changes nothing in the handler's behaviour. -/
theorem fireWebhook_ignores_status (sales : List Sale)
    (profiles : List Profile) (sid : String) (oc : Nat → AttemptOutcome)
    (sale : Sale)
    (hfind : sales.find? (fun s => s.id == sid) = some sale) :
    (∃ payload r, fireWebhook sales profiles (some sid) oc = .done payload r
      ∧ payload.event = "sale.approved"
      ∧ (∃ evs, r.events = Event.logInsert "pending" 1 :: evs)
      ∧ postsOf r.events = execAttempts oc)
    ∧ ∀ st : SaleStatus,
        fireWebhook
            (sales.map (fun s => if s.id == sid then { s with status := st }
              else s))
            profiles (some sid) oc
          = fireWebhook sales profiles (some sid) oc := by
  obtain ⟨⟨evs, hevs⟩, hposts, -, -, -, -, -, -, -⟩ := dispatchSpecAux sid oc
  constructor
  · refine ⟨payloadOf profiles sale, fireWebhookDispatch sid oc, ?_, rfl,
      ⟨evs, hevs⟩, hposts⟩
    rw [fireWebhook_some, hfind]
  · intro st
    have hmap : (sales.map (fun s => if s.id == sid then { s with status := st }
        else s)).find? (fun s => s.id == sid)
        = some { sale with status := st } := by
      rw [List.find?_map]
      have hpres : ((fun s : Sale => s.id == sid) ∘ fun s =>
          if s.id == sid then { s with status := st } else s)
          = fun s : Sale => s.id == sid := by
        funext s
        simp only [Function.comp_apply]
        rw [status_update_id]
      rw [hpres, hfind]
      have hid0 := List.find?_some hfind
      have hid : (sale.id == sid) = true := hid0
      have heq : sale.id = sid := beq_iff_eq.1 hid
      simp [hid, heq]
    rw [fireWebhook_some, fireWebhook_some, hmap, hfind]
    rfl

/-- Witness for `fireWebhook_ignores_status`: a *rejected* sale still gets
a `sale.approved` payload and a delivery sequence. -/
theorem fireWebhook_ignores_status_witness :
    (∃ payload r,
        fireWebhook
          [ { id := "S1", partner_id := some "P1", status := .rejected,
              buyer_name := "Buyer", buyer_mobile := "9876543210",
              amount := 1398, transaction_id_last4 := "0099",
              screenshot_url := none, tickets_data := [],
              rejection_reason := some "no", approved_at := none } ]
          [] (some "S1") ocDemo = .done payload r
      ∧ payload.event = "sale.approved"
      ∧ (∃ evs, r.events = Event.logInsert "pending" 1 :: evs)
      ∧ postsOf r.events = execAttempts ocDemo) :=
  (fireWebhook_ignores_status
    [ { id := "S1", partner_id := some "P1", status := .rejected,
        buyer_name := "Buyer", buyer_mobile := "9876543210",
        amount := 1398, transaction_id_last4 := "0099",
        screenshot_url := none, tickets_data := [],
        rejection_reason := some "no", approved_at := none } ]
    [] "S1" ocDemo
    { id := "S1", partner_id := some "P1", status := .rejected,
      buyer_name := "Buyer", buyer_mobile := "9876543210",
      amount := 1398, transaction_id_last4 := "0099",
      screenshot_url := none, tickets_data := [],
      rejection_reason := some "no", approved_at := none }
    (by decide)).1

/-- `s.toUpperCase()`. -/
def strToUpper (s : String) : String :=
  ⟨s.data.map Char.toUpper⟩

/-- `s.trim()`: strip leading and trailing whitespace. -/
def strTrim (s : String) : String :=
  ⟨((s.data.dropWhile Char.isWhitespace).reverse.dropWhile
      Char.isWhitespace).reverse⟩

/-- The test `/^\d{n}$/.test(s)`. -/
def matchesDigits (n : Nat) (s : String) : Bool :=
  s.data.length == n && s.data.all Char.isDigit

/-- The request body of the `create-public-sale` edge function
(`PublicSaleRequest`).  `tickets_data` is `Option` so that an
absent/null field can be told apart from an empty array; a JSON-absent
string field arrives as the falsy `""` for the purposes of the
required-field check, and a falsy `amount` is `0`. -/
structure PublicSaleRequest where
  student_code : String
  buyer_name : String
  buyer_mobile : String
  transaction_id_last4 : String
  screenshot_url : Option String
  tickets_data : Option (List TicketItem)
  amount : Int
  deriving Repr, DecidableEq

/-- The error responses of `create-public-sale` (status 400/404/403). -/
inductive SubmitError where
  | MissingRequiredFields
  | InvalidMobile
  | InvalidTransactionId
  | PartnerNotFound
  | PartnerInactive
  deriving Repr, DecidableEq

/-- The guard `!body.student_code || !body.buyer_name || !body.buyer_mobile
|| !body.transaction_id_last4 || !body.tickets_data || !body.amount`
(negated).  Note an *empty array* `[]` is truthy in JavaScript, so only
an absent/null `tickets_data` fails this check. -/
def requiredPresent (b : PublicSaleRequest) : Bool :=
  !(b.student_code == "") && !(b.buyer_name == "") && !(b.buyer_mobile == "")
    && !(b.transaction_id_last4 == "") && b.tickets_data.isSome
    && !(b.amount == 0)

/-- The `sales` row `create-public-sale` inserts once validation passed:
trimmed buyer name, the resolved partner's UUID, the client-supplied
amount and tickets, status `pending`. -/
def saleFromRequest (newId : String) (partnerUuid : String)
    (b : PublicSaleRequest) : Sale :=
  { id := newId, partner_id := some partnerUuid, status := .pending
    buyer_name := strTrim b.buyer_name
    buyer_mobile := b.buyer_mobile
    transaction_id_last4 := b.transaction_id_last4
    amount := b.amount
    screenshot_url := b.screenshot_url
    tickets_data := b.tickets_data.getD []
    rejection_reason := none, approved_at := none }

/-- Embedding of the `create-public-sale` edge-function handler:
required-field check, mobile and transaction-id format checks, partner
lookup by upper-cased code with role `student`, inactive-partner check,
then the insert.  No comparison of `amount` against the line items is
performed anywhere. -/
def createPublicSale (profiles : List Profile) (sales : List Sale)
    (newId : String) (b : PublicSaleRequest) :
    Except SubmitError (List Sale × String) :=
  if requiredPresent b = false then .error .MissingRequiredFields
  else if matchesDigits 10 b.buyer_mobile = false then .error .InvalidMobile
  else if matchesDigits 4 b.transaction_id_last4 = false then
    .error .InvalidTransactionId
  else
    match profiles.find? (fun p =>
        p.partner_id == some (strToUpper b.student_code)
          && p.role == "student") with
    | none => .error .PartnerNotFound
    | some p =>
      if p.is_active = false then .error .PartnerInactive
      else .ok (sales ++ [saleFromRequest newId p.id b], newId)

/-- Every accepted submission appends exactly one row, built by
`saleFromRequest` from some resolved profile. -/
theorem createPublicSale_ok_shape (profiles : List Profile)
    (sales : List Sale) (newId : String) (b : PublicSaleRequest)
    (sales' : List Sale) (sid : String)
    (h : createPublicSale profiles sales newId b = .ok (sales', sid)) :
    ∃ p, sales' = sales ++ [saleFromRequest newId p b] ∧ sid = newId := by
  unfold createPublicSale at h
  split at h
  · exact Except.noConfusion h
  · split at h
    · exact Except.noConfusion h
    · split at h
      · exact Except.noConfusion h
      · split at h
        · exact Except.noConfusion h
        · split at h
          · exact Except.noConfusion h
          · have hinj := Except.ok.inj h
            exact ⟨_, (congrArg Prod.fst hinj).symm,
              (congrArg Prod.snd hinj).symm⟩

/-- A single active partner profile resolvable by code `PTR001`. -/
def demoProfiles : List Profile :=
  [ { id := "U1", partner_id := some "PTR001", name := "Partner One",
      mobile := some "9876543210", role := "student", is_active := true } ]

/-- An otherwise valid submission whose supplied `amount` (1) differs
from the line-item total `699*2 + 999*1 = 2397`. -/
def mismatchedReq : PublicSaleRequest :=
  { student_code := "ptr001", buyer_name := "Buyer"
    buyer_mobile := "9876543210", transaction_id_last4 := "0099"
    screenshot_url := none
    tickets_data := some
      [ { tier_id := "T1", tier_name := "Silver", price := 699, qty := 2 },
        { tier_id := "T2", tier_name := "Gold", price := 999, qty := 1 } ]
    amount := 1 }

/-- The row `create-public-sale` stores for `mismatchedReq`. -/
def mismatchedRow : Sale :=
  { id := "S1", partner_id := some "U1", status := .pending
    buyer_name := "Buyer", buyer_mobile := "9876543210"
    amount := 1, transaction_id_last4 := "0099"
    screenshot_url := none
    tickets_data :=
      [ { tier_id := "T1", tier_name := "Silver", price := 699, qty := 2 },
        { tier_id := "T2", tier_name := "Gold", price := 999, qty := 1 } ]
    rejection_reason := none, approved_at := none }

/-- **C7 (counterexample).** `submitPublicSale` with line items
`[{price:699, qty:2}, {price:999, qty:1}]` and supplied `amount = 1` is
*accepted*, and the persisted amount is the supplied 1 — neither
rejected nor recomputed to the line-item total 2397. -/
theorem createPublicSale_accepts_mismatched_amount :
    createPublicSale demoProfiles [] "S1" mismatchedReq
        = .ok ([mismatchedRow], "S1")
    ∧ mismatchedRow.amount = 1
    ∧ (mismatchedRow.tickets_data.foldl
        (fun acc t => acc + t.price * t.qty) 0) = 2397
    ∧ ¬ mismatchedRow.amount
        = mismatchedRow.tickets_data.foldl
            (fun acc t => acc + t.price * t.qty) 0 := by
  decide

/-- **C7 (amended).** `createPublicSale` performs no validation or
recomputation of `amount` beyond the falsy-presence check: every
accepted submission persists exactly the client-supplied amount (the
stored row's `amount` equals the request's `amount`, whatever the line
items say). -/
theorem createPublicSale_amount_passthrough (profiles : List Profile)
    (sales : List Sale) (newId : String) (b : PublicSaleRequest)
    (sales' : List Sale) (sid : String)
    (h : createPublicSale profiles sales newId b = .ok (sales', sid)) :
    ∃ sale, sales' = sales ++ [sale] ∧ sale.amount = b.amount
      ∧ sale.status = .pending := by
  obtain ⟨p, hs, -⟩ := createPublicSale_ok_shape profiles sales newId b
    sales' sid h
  exact ⟨saleFromRequest newId p b, hs, rfl, rfl⟩

/-- Witness for `createPublicSale_amount_passthrough` at `mismatchedReq`. -/
theorem createPublicSale_amount_passthrough_witness :
    ∃ sale, [mismatchedRow] = [] ++ [sale]
      ∧ sale.amount = mismatchedReq.amount
      ∧ sale.status = .pending :=
  createPublicSale_amount_passthrough demoProfiles [] "S1" mismatchedReq
    [mismatchedRow] "S1" (by decide)

/-- A submission with an *empty* `tickets_data` array that is otherwise
valid. -/
def emptyTicketsReq : PublicSaleRequest :=
  { student_code := "ptr001", buyer_name := "Buyer"
    buyer_mobile := "9876543210", transaction_id_last4 := "0099"
    screenshot_url := none, tickets_data := some []
    amount := 500 }

/-- A submission whose `tickets_data` field is absent/null. -/
def noTicketsReq : PublicSaleRequest :=
  { student_code := "ptr001", buyer_name := "Buyer"
    buyer_mobile := "9876543210", transaction_id_last4 := "0099"
    screenshot_url := none, tickets_data := none
    amount := 500 }

/-- The row `create-public-sale` stores for `emptyTicketsReq`. -/
def emptyTicketsRow : Sale :=
  { id := "S1", partner_id := some "U1", status := .pending
    buyer_name := "Buyer", buyer_mobile := "9876543210"
    amount := 500, transaction_id_last4 := "0099"
    screenshot_url := none, tickets_data := []
    rejection_reason := none, approved_at := none }

/-- **C8 (counterexample).** A submission with an empty `lineItems` list
is *not* rejected: the guard `!body.tickets_data` only catches an
absent/null field (an empty array is truthy in JavaScript), so the
submission passes validation and a pending sale row with empty
`tickets_data` is persisted. -/
theorem createPublicSale_accepts_empty_tickets :
    createPublicSale demoProfiles [] "S1" emptyTicketsReq
      = .ok ([emptyTicketsRow], "S1")
    ∧ emptyTicketsRow.tickets_data = [] := by
  decide

/-- **C8 (amended).** Only an absent/null `lineItems` field is rejected
(as `MissingRequiredFields`, before any persistence); a present list —
including the empty one — passes that check, and every accepted
submission persists a pending row whose `tickets_data` is exactly the
supplied list. -/
theorem createPublicSale_tickets_presence (profiles : List Profile)
    (sales : List Sale) (newId : String) (b : PublicSaleRequest) :
    (b.tickets_data = none →
        createPublicSale profiles sales newId b
          = .error .MissingRequiredFields)
    ∧ (∀ sales' sid,
        createPublicSale profiles sales newId b = .ok (sales', sid) →
        ∃ sale, sales' = sales ++ [sale]
          ∧ sale.tickets_data = b.tickets_data.getD []
          ∧ sale.status = .pending) := by
  constructor
  · intro hnone
    have hreq : requiredPresent b = false := by
      simp [requiredPresent, hnone]
    unfold createPublicSale
    rw [if_pos hreq]
  · intro sales' sid h
    obtain ⟨p, hs, -⟩ := createPublicSale_ok_shape profiles sales newId b
      sales' sid h
    exact ⟨saleFromRequest newId p b, hs, rfl, rfl⟩

/-- Witness for `createPublicSale_tickets_presence`: the null case is
rejected; the empty-array case is persisted. -/
theorem createPublicSale_tickets_presence_witness :
    createPublicSale demoProfiles [] "S1" noTicketsReq
      = .error .MissingRequiredFields
    ∧ ∃ sale, [emptyTicketsRow] = [] ++ [sale]
      ∧ sale.tickets_data = emptyTicketsReq.tickets_data.getD []
      ∧ sale.status = .pending :=
  ⟨(createPublicSale_tickets_presence demoProfiles [] "S1" noTicketsReq).1
      rfl,
   (createPublicSale_tickets_presence demoProfiles [] "S1"
      emptyTicketsReq).2 [emptyTicketsRow] "S1" (by decide)⟩

end Portal
